/-
Verification of the waypoint-normalization, trajectory-execution, landing and
position-correction logic of `drone_show.py` (mavsdk_drone_show).

The Python functions are shallowly embedded as executable Lean definitions:
machine floats become exact rationals, CSV rows become records, the
`perform_trajectory` loop body becomes a step function over an explicit
state, and each network/telemetry interaction is an input supplied to the
iteration.  An exception caught by the loop's `except` handlers (which set
the LED red and `break`) is modelled by an explicit `errorBreak` result.
-/
import Mathlib

namespace DroneShow

/-! ## Data model

A parsed trajectory row / waypoint
(`t, px, py, pz, vx, vy, vz, ax, ay, az, yaw, mode, ledr, ledg, ledb`),
as produced by `read_trajectory_file`. -/

structure Waypoint where
  t : ℚ
  px : ℚ
  py : ℚ
  pz : ℚ
  vx : ℚ
  vy : ℚ
  vz : ℚ
  ax : ℚ
  ay : ℚ
  az : ℚ
  yaw : ℚ
  mode : String
  ledr : ℕ
  ledg : ℕ
  ledb : ℕ
deriving DecidableEq, Repr, Inhabited

/-- One raw CSV row of the trajectory source, with all fields already decoded
(the claims are about well-formed rows; per-row decode failures are logged
and skipped by the Python code and are outside this model). -/
structure CsvRow where
  t : ℚ
  px : ℚ
  py : ℚ
  pz : ℚ
  vx : ℚ
  vy : ℚ
  vz : ℚ
  ax : ℚ
  ay : ℚ
  az : ℚ
  yaw : ℚ
  mode : String
  ledr : ℕ
  ledg : ℕ
  ledb : ℕ
deriving DecidableEq, Repr, Inhabited

/-! ## Coordinate conversion and trajectory loading -/

/-- `blender_north_west_up_to_ned` (drone_show.py, lines 159-181):
convert (X=north, Y=west, Z=up) into NED `(N, E, D) = (x, -y, -z)`. -/
def blender_north_west_up_to_ned (x_b y_b z_b : ℚ) : ℚ × ℚ × ℚ :=
  (x_b, -y_b, -z_b)

/-- Modelled from the spec: `clamp_led_value` lives in
`drone_show_src/utils.py`, which is not under `src/`; the spec fixes LED
channels to the range [0,255]. -/
def clamp_led_value (v : ℕ) : ℕ :=
  min v 255

/-- The per-row decoding done inside `read_trajectory_file`
(drone_show.py, lines 364-405 and 420-459): every field is read directly
from the row — positions are taken as already-NED values, with no call to
`blender_north_west_up_to_ned`. -/
def parse_row (row : CsvRow) : Waypoint :=
  { t := row.t
    px := row.px
    py := row.py
    pz := row.pz
    vx := row.vx
    vy := row.vy
    vz := row.vz
    ax := row.ax
    ay := row.ay
    az := row.az
    yaw := row.yaw
    mode := row.mode
    ledr := clamp_led_value row.ledr
    ledg := clamp_led_value row.ledg
    ledb := clamp_led_value row.ledb }

/-- `extract_initial_positions` (drone_show.py, lines 238-260):
the first row's `px`, `py`, `pz`. -/
def extract_initial_positions (first_waypoint : CsvRow) : ℚ × ℚ × ℚ :=
  (first_waypoint.px, first_waypoint.py, first_waypoint.pz)

/-- `adjust_waypoints` (drone_show.py, lines 263-311): subtract the given
initial position from every waypoint's position. -/
def adjust_waypoints (waypoints : List Waypoint)
    (initial_x initial_y initial_z : ℚ) : List Waypoint :=
  waypoints.map fun w =>
    { w with
      px := w.px - initial_x
      py := w.py - initial_y
      pz := w.pz - initial_z }

/-- `read_trajectory_file` (drone_show.py, lines 314-481).  An empty file is
fatal (`sys.exit(1)`), modelled as `none`.  With `auto_launch_position` the
initial position is extracted from the first row; otherwise the configured
`(initial_x, initial_y)` with down-offset `0` is subtracted. -/
def read_trajectory_file (rows : List CsvRow) (auto_launch_position : Bool)
    (initial_x initial_y : ℚ) : Option (List Waypoint) :=
  match rows with
  | [] => none
  | first :: _ =>
    if auto_launch_position then
      let ip := extract_initial_positions first
      some (adjust_waypoints (rows.map parse_row) ip.1 ip.2.1 ip.2.2)
    else
      some (adjust_waypoints (rows.map parse_row) initial_x initial_y 0)

/-! ## Position-correction fetch (`compute_position_drift`) -/

/-- The MAVSDK `PositionNedYaw` record used for the drift correction. -/
structure PositionNedYaw where
  north_m : ℚ
  east_m : ℚ
  down_m : ℚ
  yaw_deg : ℚ
deriving DecidableEq, Repr, Inhabited

/-- Outcome of the HTTP `GET /get-local-position-ned` request.
`requestException` covers a timeout, a connection error, or an unparsable
body (all raising `requests.exceptions.RequestException`); `response` is a
completed HTTP response with its status code and its decoded JSON object as
an association list (a missing `x`/`y`/`z` key raises `KeyError`). -/
inductive FetchOutcome where
  | requestException
  | response (status : ℕ) (payload : List (String × ℚ))
deriving DecidableEq, Repr

/-- `compute_position_drift` (drone_show.py, lines 1010-1050): on HTTP 200
with all of `x`, `y`, `z` present it returns the drift; every failure path
(request exception, non-200 status, missing field) returns `None`. -/
def compute_position_drift (o : FetchOutcome) : Option PositionNedYaw :=
  match o with
  | .requestException => none
  | .response status payload =>
    if status = 200 then
      match payload.lookup "x", payload.lookup "y", payload.lookup "z" with
      | some x, some y, some z =>
        some { north_m := x, east_m := y, down_m := z, yaw_deg := 0 }
      | _, _, _ => none
    else none

/-! ## The trajectory-execution loop (`perform_trajectory`)

The loop body (drone_show.py, lines 534-699) is embedded as a step function
`traj_step` over an explicit state.  Wall-clock reads, the telemetry yaw
sample, and whether a setpoint send raises `OffboardError` are per-iteration
inputs.  `errorBreak` models "an exception was caught by the loop's
`except` handlers: the LED is set red and the loop breaks". -/

/-- The configuration constants of `Params` consumed by the core
(src/params.py is not part of the sources; the fields are kept abstract). -/
structure Params where
  DRIFT_CHECK_PERIOD : ℚ
  GROUND_ALTITUDE_THRESHOLD : ℚ
  INITIAL_CLIMB_ALTITUDE_THRESHOLD : ℚ
  INITIAL_CLIMB_TIME_THRESHOLD : ℚ
  INITIAL_CLIMB_MODE : String
  MISSION_PROGRESS_THRESHOLD : ℚ
  CONTROLLED_LANDING_TIME : ℚ
  CONTROLLED_LANDING_ALTITUDE : ℚ
  CONTROLLED_DESCENT_SPEED : ℚ
  LANDING_TIMEOUT : ℚ
  ENABLE_INITIAL_POSITION_CORRECTION : Bool
  USE_GLOBAL_SETPOINTS : Bool
  FEEDFORWARD_VELOCITY_ENABLED : Bool
  FEEDFORWARD_ACCELERATION_ENABLED : Bool
deriving DecidableEq, Repr

/-- `DRIFT_CATCHUP_MAX_SEC = 0.5` (drone_show.py, line 505). -/
def DRIFT_CATCHUP_MAX_SEC : ℚ := 1/2

/-- `AHEAD_SLEEP_STEP_SEC = 0.1` (drone_show.py, line 506). -/
def AHEAD_SLEEP_STEP_SEC : ℚ := 1/10

/-- The immutable per-mission data of `perform_trajectory`: the loaded
trajectory, the synchronized start time, the position correction fetched at
arming (`initial_position_drift`), and the parameters. -/
structure TrajEnv where
  waypoints : List Waypoint
  start_time : ℚ
  drift : Option PositionNedYaw
  params : Params
deriving DecidableEq, Repr

/-- The mutable loop state of `perform_trajectory`. -/
structure TrajState where
  waypoint_index : ℕ
  initial_climb_completed : Bool
  initial_climb_start_time : ℚ
  initial_climb_yaw : Option ℚ
  landing_detected : Bool
deriving DecidableEq, Repr

/-- Per-iteration external inputs: the wall clock, the attitude-telemetry
yaw sample, and whether the setpoint send of this iteration raises
`OffboardError`. -/
structure IterInput where
  now : ℚ
  attitude_yaw : ℚ
  climb_send_fails : Bool
  dispatch_send_fails : Bool
deriving DecidableEq, Repr

/-- Python `int(q)`: truncation toward zero. -/
def pyInt (q : ℚ) : ℤ :=
  if 0 ≤ q then ⌊q⌋ else ⌈q⌉

/-- `csv_step` (drone_show.py, lines 520-521): the difference of the first
two time offsets, or `Params.DRIFT_CHECK_PERIOD` for a single-waypoint
trajectory. -/
def csv_step_of (P : Params) (ws : List Waypoint) : ℚ :=
  match ws with
  | w0 :: w1 :: _ => w1.t - w0.t
  | _ => P.DRIFT_CHECK_PERIOD

/-- The waypoint at index `i` (`waypoints[waypoint_index]`; the loop guard
keeps `i` in range). -/
def wpAt (env : TrajEnv) (i : ℕ) : Waypoint :=
  env.waypoints.getD i default

/-- The cursor move of the drift-skip block (drone_show.py, lines 596-600):
`waypoint_index = min(waypoint_index + skip_count, total_waypoints - 1)`,
applied only when `skip_count > 0`. -/
def drift_skip_index (waypoint_index : ℕ) (skip_count : ℤ) (total : ℕ) : ℕ :=
  if 0 < skip_count then min (waypoint_index + skip_count.toNat) (total - 1)
  else waypoint_index

/-- The initial-position correction application (drone_show.py, lines
551-557 and 609-614): the drift is added when the feature is enabled and a
drift object is present (Python truthiness: `None` is the only falsy
value). -/
def corrected_pos (env : TrajEnv) (wp : Waypoint) : ℚ × ℚ × ℚ :=
  match env.params.ENABLE_INITIAL_POSITION_CORRECTION, env.drift with
  | true, some d => (wp.px + d.north_m, wp.py + d.east_m, wp.pz + d.down_m)
  | _, _ => (wp.px, wp.py, wp.pz)

/-- The initial-climb gate (drone_show.py, lines 560-569): once completed it
stays off; otherwise the climb continues while the (corrected) setpoint
altitude is under `INITIAL_CLIMB_ALTITUDE_THRESHOLD` or the time in climb is
under `INITIAL_CLIMB_TIME_THRESHOLD`. -/
def climb_gate (P : Params) (completed : Bool) (pz time_in_climb : ℚ) : Bool :=
  if completed then false
  else
    decide (-pz < P.INITIAL_CLIMB_ALTITUDE_THRESHOLD)
      || decide (time_in_climb < P.INITIAL_CLIMB_TIME_THRESHOLD)

/-- `final_altitude = -waypoints[-1][3]` (drone_show.py, line 524). -/
def trajectory_final_altitude (ws : List Waypoint) : ℚ :=
  -(ws.getLastD default).pz

/-- `trajectory_ends_high = final_altitude > GROUND_ALTITUDE_THRESHOLD`
(drone_show.py, line 525). -/
def trajectory_ends_high (P : Params) (ws : List Waypoint) : Bool :=
  decide (P.GROUND_ALTITUDE_THRESHOLD < trajectory_final_altitude ws)

/-- The landing-trigger test (drone_show.py, lines 674-676):
`(not trajectory_ends_high) and prog >= MISSION_PROGRESS_THRESHOLD and
(time_to_end <= CONTROLLED_LANDING_TIME or
 current_alt_sp < CONTROLLED_LANDING_ALTITUDE)`. -/
def landing_trigger_decision (P : Params) (ends_high : Bool)
    (prog time_to_end current_alt_sp : ℚ) : Bool :=
  !ends_high && decide (P.MISSION_PROGRESS_THRESHOLD ≤ prog)
    && (decide (time_to_end ≤ P.CONTROLLED_LANDING_TIME)
        || decide (current_alt_sp < P.CONTROLLED_LANDING_ALTITUDE))

/-- A setpoint dispatched to the vehicle, tagged with the cursor index it
was issued for. -/
inductive DispatchEvent where
  | climbBody (idx : ℕ)
  | climbPosition (idx : ℕ)
  | setpointGlobal (idx : ℕ)
  | setpointLocalPos (idx : ℕ)
  | setpointLocalPosVel (idx : ℕ)
  | setpointLocalPosVelAcc (idx : ℕ)
deriving DecidableEq, Repr

/-- The cursor index of a dispatched setpoint. -/
def DispatchEvent.idx : DispatchEvent → ℕ
  | .climbBody i => i
  | .climbPosition i => i
  | .setpointGlobal i => i
  | .setpointLocalPos i => i
  | .setpointLocalPosVel i => i
  | .setpointLocalPosVelAcc i => i

/-- The climb setpoint kind (drone_show.py, lines 574-591). -/
def climb_event_of (P : Params) (idx : ℕ) : DispatchEvent :=
  if P.INITIAL_CLIMB_MODE = "BODY_VELOCITY" then .climbBody idx
  else .climbPosition idx

/-- The main-dispatch setpoint kind (drone_show.py, lines 624-661): one of
the four mutually exclusive modes. -/
def dispatch_event_of (P : Params) (idx : ℕ) : DispatchEvent :=
  if P.USE_GLOBAL_SETPOINTS then .setpointGlobal idx
  else if P.FEEDFORWARD_VELOCITY_ENABLED && P.FEEDFORWARD_ACCELERATION_ENABLED then
    .setpointLocalPosVelAcc idx
  else if P.FEEDFORWARD_VELOCITY_ENABLED then .setpointLocalPosVel idx
  else .setpointLocalPos idx

/-- `drift_delta = (now - start_time) - waypoint[waypoint_index].t`
(drone_show.py, lines 536-540). -/
def iter_drift_delta (env : TrajEnv) (s : TrajState) (inp : IterInput) : ℚ :=
  inp.now - env.start_time - (wpAt env s.waypoint_index).t

/-- `skip_count = int(min(drift_delta, DRIFT_CATCHUP_MAX_SEC) / csv_step)`
(drone_show.py, lines 596-597). -/
def iter_skip_count (env : TrajEnv) (s : TrajState) (inp : IterInput) : ℤ :=
  pyInt (min (iter_drift_delta env s inp) DRIFT_CATCHUP_MAX_SEC
    / csv_step_of env.params env.waypoints)

/-- The cursor index this iteration dispatches for, after the drift-skip. -/
def iter_dispatch_index (env : TrajEnv) (s : TrajState) (inp : IterInput) : ℕ :=
  drift_skip_index s.waypoint_index (iter_skip_count env s inp)
    env.waypoints.length

/-- `current_alt_sp = -pz` (drone_show.py, line 617), with `pz` re-read and
re-corrected only when a skip happened (lines 601-614). -/
def iter_alt_sp (env : TrajEnv) (s : TrajState) (inp : IterInput) : ℚ :=
  if 0 < iter_skip_count env s inp then
    -(corrected_pos env (wpAt env (iter_dispatch_index env s inp))).2.2
  else
    -(corrected_pos env (wpAt env s.waypoint_index)).2.2

/-- `time_to_end = waypoints[-1][0] - t_wp` (drone_show.py, line 666), with
`t_wp` re-read after the skip. -/
def iter_time_to_end (env : TrajEnv) (s : TrajState) (inp : IterInput) : ℚ :=
  (env.waypoints.getLastD default).t
    - (wpAt env (iter_dispatch_index env s inp)).t

/-- `prog = (waypoint_index + 1) / total_waypoints` (drone_show.py,
line 667), with the post-skip index. -/
def iter_prog (env : TrajEnv) (s : TrajState) (inp : IterInput) : ℚ :=
  ((iter_dispatch_index env s inp : ℚ) + 1) / (env.waypoints.length : ℚ)

/-- Result of one iteration of the trajectory loop: continue with the new
state (optionally after dispatching a setpoint), break with the landing
triggered (the Landing Controller was invoked), or break on a caught
exception (LED set red). -/
inductive StepResult where
  | next (s : TrajState) (ev : Option DispatchEvent)
  | landingBreak (s : TrajState) (ev : DispatchEvent)
  | errorBreak
deriving DecidableEq, Repr

/-- `true` exactly on a `landingBreak` result. -/
def StepResult.isLandingBreak : StepResult → Bool
  | .landingBreak _ _ => true
  | _ => false

/-- `true` exactly on a `next` result. -/
def StepResult.isNext : StepResult → Bool
  | .next _ _ => true
  | _ => false

/-- One iteration of the `perform_trajectory` loop body (drone_show.py,
lines 534-699).  The branches in order: out-of-range access raises and is
caught (`errorBreak`); Case A (on time or late) applies the correction,
runs the climb gate, the drift-skip (whose division raises
`ZeroDivisionError` when `csv_step = 0`), the dispatch (an `OffboardError`
is caught: `errorBreak`), and the landing decision; Case B (ahead of
schedule) sleeps, or advances the cursor when the sleep duration is not
positive. -/
def traj_step (env : TrajEnv) (s : TrajState) (inp : IterInput) : StepResult :=
  if s.waypoint_index < env.waypoints.length then
    let wp := wpAt env s.waypoint_index
    let drift_delta := iter_drift_delta env s inp
    if 0 ≤ drift_delta then
      let pz := (corrected_pos env wp).2.2
      let in_climb := climb_gate env.params s.initial_climb_completed pz
        (inp.now - s.initial_climb_start_time)
      let completed' := s.initial_climb_completed || !in_climb
      if in_climb then
        if inp.climb_send_fails then .errorBreak
        else
          .next
            { s with
              waypoint_index := s.waypoint_index + 1
              initial_climb_completed := completed'
              initial_climb_yaw := some (s.initial_climb_yaw.getD
                (if env.params.INITIAL_CLIMB_MODE = "BODY_VELOCITY" then wp.yaw
                 else inp.attitude_yaw)) }
            (some (climb_event_of env.params s.waypoint_index))
      else if csv_step_of env.params env.waypoints = 0 then .errorBreak
      else
        let idx1 := iter_dispatch_index env s inp
        if inp.dispatch_send_fails then .errorBreak
        else
          let ev := dispatch_event_of env.params idx1
          if landing_trigger_decision env.params
              (trajectory_ends_high env.params env.waypoints)
              (iter_prog env s inp) (iter_time_to_end env s inp)
              (iter_alt_sp env s inp) then
            .landingBreak
              { s with
                waypoint_index := idx1
                initial_climb_completed := completed'
                landing_detected := true } ev
          else
            .next
              { s with
                waypoint_index := idx1 + 1
                initial_climb_completed := completed' } (some ev)
    else
      if 0 < (wpAt env s.waypoint_index).t - (inp.now - env.start_time) then
        .next s none
      else .next { s with waypoint_index := s.waypoint_index + 1 } none
  else .errorBreak

/-- Run the loop on a list of per-iteration inputs, collecting the cursor
indices of all dispatched setpoints in order.  The loop stops on cursor
exhaustion (the `while` guard), a landing trigger, or an error break; the
input list is the fuel. -/
def traj_run (env : TrajEnv) : TrajState → List IterInput → List ℕ
  | _, [] => []
  | s, inp :: rest =>
    if s.waypoint_index < env.waypoints.length then
      match traj_step env s inp with
      | .next s' ev => (ev.map DispatchEvent.idx).toList ++ traj_run env s' rest
      | .landingBreak _ ev => [ev.idx]
      | .errorBreak => []
    else []

/-- The post-loop landing handling (drone_show.py, lines 701-708). -/
inductive PostLoopAction where
  | nativeLanding
  | controlledDescent
  | noneNeeded
deriving DecidableEq, Repr

/-- Post-loop: nothing more if the landing was already triggered; otherwise
native landing when the trajectory ends high, else the controlled descent. -/
def post_loop (env : TrajEnv) (landing_detected : Bool) : PostLoopAction :=
  if landing_detected then .noneNeeded
  else if trajectory_ends_high env.params env.waypoints then .nativeLanding
  else .controlledDescent

/-! ## The landing controller (`controlled_landing`) -/

/-- Externally observable actions of the landing controller. -/
inductive LandAction where
  | sendDescent
  | ledRed
  | ledGreen
  | stopOffboard
  | nativeLand
  | disarm
deriving DecidableEq, Repr

/-- Immutable data of a `controlled_landing` run. -/
structure LandEnv where
  params : Params
  landing_start_time : ℚ
deriving DecidableEq, Repr

/-- Per-iteration inputs of the descent loop: whether the descent setpoint
send raises `OffboardError`, the `landed_state` telemetry sample, and the
wall clock at the timeout check. -/
structure LandIterInput where
  send_fails : Bool
  on_ground : Bool
  now : ℚ
deriving DecidableEq, Repr

/-- The descent `while` loop of `controlled_landing` (drone_show.py, lines
739-763): per iteration, send the descent setpoint (`OffboardError` sets
the LED red and breaks), read one `landed_state` sample, then run the
timeout check (on timeout: stop offboard, native landing, break).  Returns
the action trace of the loop together with the final `landing_detected`
flag; `none` when the supplied inputs run out before the loop exits. -/
def controlled_landing_loop (env : LandEnv) :
    List LandIterInput → Option (List LandAction × Bool)
  | [] => none
  | i :: rest =>
    if i.send_fails then some ([.ledRed], false)
    else if env.params.LANDING_TIMEOUT < i.now - env.landing_start_time then
      some ([.sendDescent, .stopOffboard, .nativeLand], i.on_ground)
    else if i.on_ground then some ([.sendDescent], true)
    else
      match controlled_landing_loop env rest with
      | none => none
      | some (tr, d) => some (.sendDescent :: tr, d)

/-- `controlled_landing` (drone_show.py, lines 716-773): the initial switch
to descent mode (an `OffboardError` there sets the LED red and *returns*),
the descent loop, then the post-loop branch — on detection stop offboard
and disarm, otherwise stop offboard and fall back to native landing — and
finally the green LED. -/
def controlled_landing (env : LandEnv) (setup_send_fails : Bool)
    (inputs : List LandIterInput) : Option (List LandAction) :=
  if setup_send_fails then some [.ledRed]
  else
    match controlled_landing_loop env inputs with
    | none => none
    | some (tr, landing_detected) =>
      some (tr
        ++ (if landing_detected then [.stopOffboard, .disarm]
            else [.stopOffboard, .nativeLand])
        ++ [.ledGreen])

/-! ## Concrete sample data (used by witnesses and counterexamples) -/

/-- A waypoint with the given time offset and down coordinate, all other
fields zero. -/
def sampleWp (t pz : ℚ) : Waypoint :=
  { t := t, px := 0, py := 0, pz := pz, vx := 0, vy := 0, vz := 0,
    ax := 0, ay := 0, az := 0, yaw := 0, mode := "0",
    ledr := 0, ledg := 0, ledb := 0 }

/-- A sample CSV row with nonzero position coordinates. -/
def sampleRow : CsvRow :=
  { t := 0, px := 2, py := 1, pz := 3, vx := 0, vy := 0, vz := 0,
    ax := 0, ay := 0, az := 0, yaw := 0, mode := "0",
    ledr := 0, ledg := 0, ledb := 0 }

/-- A sample parameter set. -/
def sampleParams : Params :=
  { DRIFT_CHECK_PERIOD := 1, GROUND_ALTITUDE_THRESHOLD := 10,
    INITIAL_CLIMB_ALTITUDE_THRESHOLD := 0, INITIAL_CLIMB_TIME_THRESHOLD := 0,
    INITIAL_CLIMB_MODE := "BODY_VELOCITY", MISSION_PROGRESS_THRESHOLD := 0,
    CONTROLLED_LANDING_TIME := 1, CONTROLLED_LANDING_ALTITUDE := 3,
    CONTROLLED_DESCENT_SPEED := 1, LANDING_TIMEOUT := 10,
    ENABLE_INITIAL_POSITION_CORRECTION := false,
    USE_GLOBAL_SETPOINTS := false,
    FEEDFORWARD_VELOCITY_ENABLED := false,
    FEEDFORWARD_ACCELERATION_ENABLED := false }

/-- A two-waypoint mission ending low (final altitude 3 ≤ threshold 10). -/
def sampleEnv : TrajEnv :=
  { waypoints := [sampleWp 0 (-3), sampleWp 10 (-3)], start_time := 0,
    drift := none, params := sampleParams }

/-- A loop state with the initial climb already completed. -/
def sampleState : TrajState :=
  { waypoint_index := 0, initial_climb_completed := true,
    initial_climb_start_time := 0, initial_climb_yaw := none,
    landing_detected := false }

/-- An on-time iteration input with no command failures. -/
def sampleInput : IterInput :=
  { now := 0, attitude_yaw := 0, climb_send_fails := false,
    dispatch_send_fails := false }

/-- Parameters whose climb-altitude threshold keeps the climb gate open. -/
def climbParams : Params :=
  { sampleParams with INITIAL_CLIMB_ALTITUDE_THRESHOLD := 100 }

/-- The sample mission under `climbParams`. -/
def climbEnv : TrajEnv :=
  { sampleEnv with params := climbParams }

/-- A loop state still inside the initial climb. -/
def climbState : TrajState :=
  { sampleState with initial_climb_completed := false }

/-- A late iteration whose climb setpoint send raises `OffboardError`. -/
def climbFailInput : IterInput :=
  { sampleInput with now := 5, climb_send_fails := true }

/-- A mission whose first two time offsets are equal (`csv_step = 0`). -/
def zeroStepEnv : TrajEnv :=
  { sampleEnv with waypoints := [sampleWp 0 0, sampleWp 0 0] }

/-- A sample landing-controller environment. -/
def sampleLandEnv : LandEnv :=
  { params := sampleParams, landing_start_time := 0 }

/-! ## C1 — ground-plan → NED conversion at load time -/

/-- C1 (counterexample): the claim says each loaded waypoint's east is the
negation of the row's Y and its down the negation of the row's Z.  On the
row `(px, py, pz) = (2, 1, 3)` the loader yields east `1` (not `-1`) and
down `3` (not `-3`): `read_trajectory_file` never applies the conversion. -/
theorem loaded_row_not_negated_counterexample :
    (parse_row sampleRow).py = 1 ∧ ¬((parse_row sampleRow).py = -sampleRow.py)
    ∧ (parse_row sampleRow).pz = 3 ∧ ¬((parse_row sampleRow).pz = -sampleRow.pz)
    ∧ blender_north_west_up_to_ned sampleRow.px sampleRow.py sampleRow.pz
        = (2, -1, -3) := by
  refine ⟨rfl, by decide, rfl, by decide, rfl⟩

/-- C1 (amended): the per-row load of `read_trajectory_file` takes the
row's X, Y, Z directly as north, east, down — no ground-plan conversion is
applied — while the (uncalled) helper `blender_north_west_up_to_ned` is the
fixed map `(x, y, z) ↦ (x, -y, -z)`. -/
theorem loader_reads_positions_directly_as_ned (row : CsvRow) (x y z : ℚ) :
    (parse_row row).px = row.px
    ∧ (parse_row row).py = row.py
    ∧ (parse_row row).pz = row.pz
    ∧ blender_north_west_up_to_ned x y z = (x, -y, -z) :=
  ⟨rfl, rfl, rfl, rfl⟩

/-! ## C5 — auto-origin adjustment -/

/-- C5: with auto-origin, every loaded waypoint's position is the
corresponding raw row position minus the first row's raw position, so the
first waypoint's position is `(0, 0, 0)`. -/
theorem auto_origin_adjustment (rows : List CsvRow) (ix iy : ℚ)
    (hne : rows ≠ []) :
    ∃ ws, read_trajectory_file rows true ix iy = some ws
      ∧ ws.headI.px = 0 ∧ ws.headI.py = 0 ∧ ws.headI.pz = 0
      ∧ ws.length = rows.length
      ∧ ∀ i, i < rows.length →
          (ws.getD i default).px = (rows.getD i default).px - rows.headI.px
          ∧ (ws.getD i default).py = (rows.getD i default).py - rows.headI.py
          ∧ (ws.getD i default).pz = (rows.getD i default).pz - rows.headI.pz := by
  obtain ⟨r0, rest, rfl⟩ : ∃ r0 rest, rows = r0 :: rest := by
    cases rows with
    | nil => exact absurd rfl hne
    | cons a l => exact ⟨a, l, rfl⟩
  refine ⟨_, rfl, ?_⟩
  simp only [read_trajectory_file, extract_initial_positions,
    adjust_waypoints, List.map_map]
  constructor
  · simp [List.headI, parse_row]
  constructor
  · simp [List.headI, parse_row]
  constructor
  · simp [List.headI, parse_row]
  constructor
  · simp
  · intro i hi
    have hws : ((r0 :: rest).map (fun r =>
        { parse_row r with
          px := (parse_row r).px - r0.px
          py := (parse_row r).py - r0.py
          pz := (parse_row r).pz - r0.pz })).getD i default
        = { parse_row ((r0 :: rest).getD i default) with
            px := (parse_row ((r0 :: rest).getD i default)).px - r0.px
            py := (parse_row ((r0 :: rest).getD i default)).py - r0.py
            pz := (parse_row ((r0 :: rest).getD i default)).pz - r0.pz } := by
      rw [List.getD_eq_getElem?_getD, List.getElem?_map,
        List.getElem?_eq_getElem hi, List.getD_eq_getElem?_getD,
        List.getElem?_eq_getElem hi]
      rfl
    simp only [Function.comp_def] at hws ⊢
    rw [hws]
    simp [List.headI, parse_row]

/-- C5 (witness): the theorem at the concrete two-row trajectory. -/
theorem auto_origin_adjustment_witness :
    ([sampleRow, { sampleRow with px := 5 }] ≠ ([] : List CsvRow))
    ∧ ∃ ws, read_trajectory_file [sampleRow, { sampleRow with px := 5 }] true 7 8
        = some ws
      ∧ ws.headI.px = 0 ∧ ws.headI.py = 0 ∧ ws.headI.pz = 0
      ∧ ws.length = [sampleRow, { sampleRow with px := 5 }].length
      ∧ ∀ i, i < [sampleRow, { sampleRow with px := 5 }].length →
          (ws.getD i default).px
            = ([sampleRow, { sampleRow with px := 5 }].getD i default).px
              - [sampleRow, { sampleRow with px := 5 }].headI.px
          ∧ (ws.getD i default).py
            = ([sampleRow, { sampleRow with px := 5 }].getD i default).py
              - [sampleRow, { sampleRow with px := 5 }].headI.py
          ∧ (ws.getD i default).pz
            = ([sampleRow, { sampleRow with px := 5 }].getD i default).pz
              - [sampleRow, { sampleRow with px := 5 }].headI.pz :=
  ⟨by decide, auto_origin_adjustment _ 7 8 (by decide)⟩

/-! ## C6 — configured-origin adjustment -/

/-- C6: with a configured origin `(ox, oy)`, the first loaded waypoint's
position is `(first.px - ox, first.py - oy, first.pz)`: north and east are
shifted, the down coordinate is unchanged (down offset `0`). -/
theorem configured_origin_adjustment (rows : List CsvRow) (ox oy : ℚ)
    (hne : rows ≠ []) :
    ∃ ws, read_trajectory_file rows false ox oy = some ws
      ∧ ws.headI.px = rows.headI.px - ox
      ∧ ws.headI.py = rows.headI.py - oy
      ∧ ws.headI.pz = rows.headI.pz := by
  obtain ⟨r0, rest, rfl⟩ : ∃ r0 rest, rows = r0 :: rest := by
    cases rows with
    | nil => exact absurd rfl hne
    | cons a l => exact ⟨a, l, rfl⟩
  refine ⟨_, rfl, ?_, ?_, ?_⟩ <;>
    simp [read_trajectory_file, adjust_waypoints, List.headI, parse_row]

/-- C6 (witness): the theorem at the concrete one-row trajectory with
offsets `(7, 1/2)`. -/
theorem configured_origin_adjustment_witness :
    ([sampleRow] ≠ ([] : List CsvRow))
    ∧ ∃ ws, read_trajectory_file [sampleRow] false 7 (1/2) = some ws
      ∧ ws.headI.px = [sampleRow].headI.px - 7
      ∧ ws.headI.py = [sampleRow].headI.py - 1/2
      ∧ ws.headI.pz = [sampleRow].headI.pz :=
  ⟨by decide, configured_origin_adjustment [sampleRow] 7 (1/2) (by decide)⟩

/-! ## C7 — position-correction fetch failures are non-fatal -/

/-- C7: every failure of the position-correction fetch — request exception
(timeout, connection error, unparsable body), non-success HTTP status, or a
payload missing one of `x`, `y`, `z` — yields no correction (`None`), and a
missing correction leaves every waypoint's position unchanged (a zero
offset).  `compute_position_drift` is total on these outcomes: the failure
is caught inside it, so no exception escapes into the arming sequence. -/
theorem correction_fetch_failure_nonfatal (st : ℕ)
    (payload : List (String × ℚ)) (env : TrajEnv) (wp : Waypoint)
    (hfail : st ≠ 200 ∨ payload.lookup "x" = none
      ∨ payload.lookup "y" = none ∨ payload.lookup "z" = none) :
    compute_position_drift .requestException = none
    ∧ compute_position_drift (.response st payload) = none
    ∧ corrected_pos { env with drift := none } wp = (wp.px, wp.py, wp.pz) := by
  refine ⟨rfl, ?_, ?_⟩
  · simp only [compute_position_drift]
    rcases hfail with h | h | h | h
    · rw [if_neg h]
    all_goals
      rcases hx : payload.lookup "x" with _ | x <;>
        rcases hy : payload.lookup "y" with _ | y <;>
          rcases hz : payload.lookup "z" with _ | z <;>
            simp_all
  · unfold corrected_pos
    rcases env.params.ENABLE_INITIAL_POSITION_CORRECTION <;> rfl

/-- C7 (witness): the theorem at HTTP status 500 with an empty payload. -/
theorem correction_fetch_failure_nonfatal_witness :
    ((500 : ℕ) ≠ 200 ∨ ([] : List (String × ℚ)).lookup "x" = none
      ∨ ([] : List (String × ℚ)).lookup "y" = none
      ∨ ([] : List (String × ℚ)).lookup "z" = none)
    ∧ (compute_position_drift .requestException = none
      ∧ compute_position_drift (.response 500 []) = none
      ∧ corrected_pos { sampleEnv with drift := none } (sampleWp 0 (-3))
          = ((sampleWp 0 (-3)).px, (sampleWp 0 (-3)).py, (sampleWp 0 (-3)).pz)) :=
  ⟨Or.inl (by decide),
    correction_fetch_failure_nonfatal 500 [] sampleEnv (sampleWp 0 (-3))
      (Or.inl (by decide))⟩

/-! ## Helper lemmas about the loop model -/

theorem climb_gate_of_completed (P : Params) (pz t : ℚ) :
    climb_gate P true pz t = false := rfl

theorem idx_climb_event_of (P : Params) (i : ℕ) :
    (climb_event_of P i).idx = i := by
  unfold climb_event_of
  split <;> rfl

theorem idx_dispatch_event_of (P : Params) (i : ℕ) :
    (dispatch_event_of P i).idx = i := by
  unfold dispatch_event_of
  split
  · rfl
  · split
    · rfl
    · split <;> rfl

theorem drift_skip_index_bounds (idx : ℕ) (k : ℤ) (total : ℕ)
    (h : idx < total) :
    idx ≤ drift_skip_index idx k total
    ∧ drift_skip_index idx k total ≤ total - 1 := by
  unfold drift_skip_index
  split
  · exact ⟨le_min (Nat.le_add_right _ _) (by omega), min_le_right _ _⟩
  · omega

theorem landing_trigger_decision_eq_true_iff (P : Params) (ws : List Waypoint)
    (prog tte alt : ℚ) :
    landing_trigger_decision P (trajectory_ends_high P ws) prog tte alt = true ↔
      (trajectory_final_altitude ws ≤ P.GROUND_ALTITUDE_THRESHOLD
       ∧ P.MISSION_PROGRESS_THRESHOLD ≤ prog
       ∧ (tte ≤ P.CONTROLLED_LANDING_TIME
          ∨ alt < P.CONTROLLED_LANDING_ALTITUDE)) := by
  simp [landing_trigger_decision, trajectory_ends_high, not_lt, and_assoc]

/-! ## C2 — mid-loop landing trigger -/

/-- C2 (counterexample): the claim uses `current altitude ≤ landing-altitude
threshold`, the code uses strict `<` (drone_show.py, line 676).  On the
sample mission at the dispatch iteration for waypoint 0 we have final
altitude 3 ≤ 10, progress 1/2 ≥ 0, time-to-end 10 > 1, and current setpoint
altitude exactly 3 = `CONTROLLED_LANDING_ALTITUDE`: the claim's condition
holds, yet the loop dispatches and continues — no landing is triggered. -/
theorem landing_trigger_boundary_counterexample :
    (trajectory_final_altitude sampleEnv.waypoints
        ≤ sampleEnv.params.GROUND_ALTITUDE_THRESHOLD
      ∧ sampleEnv.params.MISSION_PROGRESS_THRESHOLD
          ≤ iter_prog sampleEnv sampleState sampleInput
      ∧ iter_alt_sp sampleEnv sampleState sampleInput
          = sampleEnv.params.CONTROLLED_LANDING_ALTITUDE
      ∧ ¬(iter_time_to_end sampleEnv sampleState sampleInput
          ≤ sampleEnv.params.CONTROLLED_LANDING_TIME))
    ∧ traj_step sampleEnv sampleState sampleInput
        = .next { sampleState with waypoint_index := 1 }
            (some (.setpointLocalPos 0))
    ∧ (traj_step sampleEnv sampleState sampleInput).isLandingBreak = false := by
  refine ⟨⟨?_, ?_, ?_, ?_⟩, ?_, ?_⟩ <;> with_unfolding_all decide

/-- C2 (amended): on an on-time dispatch iteration after the climb (with a
nonzero `csv_step` and a successful send), the loop transitions to the
controlled landing — invoking the Landing Controller and stopping the
loop — if and only if the trajectory's final altitude is ≤ the ground
threshold, the progress is ≥ the mission-progress threshold, and either
`time_to_end` is ≤ the landing-time threshold or the current setpoint
altitude is *strictly below* the landing-altitude threshold. -/
theorem landing_trigger_characterization (env : TrajEnv) (s : TrajState)
    (inp : IterInput)
    (hidx : s.waypoint_index < env.waypoints.length)
    (hontime : 0 ≤ iter_drift_delta env s inp)
    (hclimb : s.initial_climb_completed = true)
    (hcs : csv_step_of env.params env.waypoints ≠ 0)
    (hsend : inp.dispatch_send_fails = false) :
    (traj_step env s inp).isLandingBreak = true ↔
      (trajectory_final_altitude env.waypoints
          ≤ env.params.GROUND_ALTITUDE_THRESHOLD
       ∧ env.params.MISSION_PROGRESS_THRESHOLD ≤ iter_prog env s inp
       ∧ (iter_time_to_end env s inp ≤ env.params.CONTROLLED_LANDING_TIME
          ∨ iter_alt_sp env s inp
              < env.params.CONTROLLED_LANDING_ALTITUDE)) := by
  have hgate : climb_gate env.params s.initial_climb_completed
      ((corrected_pos env (wpAt env s.waypoint_index)).2.2)
      (inp.now - s.initial_climb_start_time) = false := by
    rw [hclimb]
    exact climb_gate_of_completed _ _ _
  simp only [traj_step]
  rw [if_pos hidx, if_pos hontime, hgate]
  simp only [Bool.false_eq_true, if_false, hsend]
  rw [if_neg hcs]
  split
  case isTrue hdec =>
    exact iff_of_true rfl
      ((landing_trigger_decision_eq_true_iff env.params env.waypoints _ _ _).1 hdec)
  case isFalse hdec =>
    refine iff_of_false ?_ fun hr =>
      hdec ((landing_trigger_decision_eq_true_iff env.params env.waypoints _ _ _).2 hr)
    simp [StepResult.isLandingBreak]

/-- C2 (witness): the characterization at the concrete sample iteration,
where neither side of the equivalence holds. -/
theorem landing_trigger_characterization_witness :
    (sampleState.waypoint_index < sampleEnv.waypoints.length
      ∧ 0 ≤ iter_drift_delta sampleEnv sampleState sampleInput
      ∧ sampleState.initial_climb_completed = true
      ∧ csv_step_of sampleEnv.params sampleEnv.waypoints ≠ 0
      ∧ sampleInput.dispatch_send_fails = false)
    ∧ ((traj_step sampleEnv sampleState sampleInput).isLandingBreak = true ↔
        (trajectory_final_altitude sampleEnv.waypoints
            ≤ sampleEnv.params.GROUND_ALTITUDE_THRESHOLD
         ∧ sampleEnv.params.MISSION_PROGRESS_THRESHOLD
             ≤ iter_prog sampleEnv sampleState sampleInput
         ∧ (iter_time_to_end sampleEnv sampleState sampleInput
              ≤ sampleEnv.params.CONTROLLED_LANDING_TIME
            ∨ iter_alt_sp sampleEnv sampleState sampleInput
                < sampleEnv.params.CONTROLLED_LANDING_ALTITUDE))) :=
  ⟨⟨by decide, by with_unfolding_all decide, by decide,
      by with_unfolding_all decide, by decide⟩,
    landing_trigger_characterization sampleEnv sampleState sampleInput
      (by decide) (by with_unfolding_all decide) (by decide)
      (by with_unfolding_all decide) (by decide)⟩

/-! ## C3 — drift-skip advances by exactly k -/

/-- C3: on an on-time iteration after the climb, if
`per_sample_duration * k ≤ timing_error < per_sample_duration * (k+1)` and
`timing_error ≤ max_catchup` (0.5 s), the drift-skip advances the cursor by
exactly `k`, clamped to the last index.  In particular, in Scenario B
(start 5 s in the past, first sample at `t = 0`, per-sample duration 0.5,
max catch-up 0.5) the first-iteration skip advances the cursor by exactly
1, not 10. -/
theorem drift_skip_advances_exactly_k (psd te : ℚ) (k idx total : ℕ)
    (hpsd : 0 < psd) (hlo : psd * k ≤ te) (hhi : te < psd * (k + 1))
    (hcap : te ≤ DRIFT_CATCHUP_MAX_SEC) (hidx : idx < total) :
    pyInt (min te DRIFT_CATCHUP_MAX_SEC / psd) = k
    ∧ drift_skip_index idx (pyInt (min te DRIFT_CATCHUP_MAX_SEC / psd)) total
        = min (idx + k) (total - 1)
    ∧ pyInt (min (5 : ℚ) DRIFT_CATCHUP_MAX_SEC / (1/2)) = 1
    ∧ drift_skip_index 0 (pyInt (min (5 : ℚ) DRIFT_CATCHUP_MAX_SEC / (1/2))) 11
        = 1 := by
  have hte0 : 0 ≤ te := le_trans (by positivity) hlo
  have hmin : min te DRIFT_CATCHUP_MAX_SEC = te := min_eq_left hcap
  have hq0 : 0 ≤ te / psd := div_nonneg hte0 hpsd.le
  have hk : pyInt (min te DRIFT_CATCHUP_MAX_SEC / psd) = (k : ℤ) := by
    rw [hmin]
    unfold pyInt
    rw [if_pos hq0, Int.floor_eq_iff]
    constructor
    · rw [le_div_iff₀ hpsd]
      push_cast
      linarith
    · rw [div_lt_iff₀ hpsd]
      push_cast
      linarith
  refine ⟨hk, ?_, by with_unfolding_all decide, by with_unfolding_all decide⟩
  rw [hk]
  unfold drift_skip_index
  rcases Nat.eq_zero_or_pos k with hk0 | hkpos
  · subst hk0
    simp only [Nat.cast_zero, lt_self_iff_false, if_false, Nat.add_zero]
    omega
  · rw [if_pos (by exact_mod_cast hkpos)]
    rw [Int.toNat_natCast]

/-- C3 (witness): the theorem at `psd = 1/2`, `te = 1/2`, `k = 1`,
cursor 0 of 11 waypoints. -/
theorem drift_skip_advances_exactly_k_witness :
    (0 : ℚ) < 1/2
    ∧ pyInt (min (1/2 : ℚ) DRIFT_CATCHUP_MAX_SEC / (1/2)) = 1
    ∧ drift_skip_index 0 (pyInt (min (1/2 : ℚ) DRIFT_CATCHUP_MAX_SEC / (1/2))) 11
        = 1
    ∧ pyInt (min (5 : ℚ) DRIFT_CATCHUP_MAX_SEC / (1/2)) = 1
    ∧ drift_skip_index 0 (pyInt (min (5 : ℚ) DRIFT_CATCHUP_MAX_SEC / (1/2))) 11
        = 1 := by
  obtain ⟨h1, h2, h3, h4⟩ := drift_skip_advances_exactly_k (1/2) (1/2) 1 0 11
    (by norm_num) (by norm_num) (by norm_num)
    (by norm_num [DRIFT_CATCHUP_MAX_SEC]) (by norm_num)
  refine ⟨by norm_num, by exact_mod_cast h1, by simpa using h2, h3, h4⟩

/-! ## C4 — cursor monotonicity and dispatch order -/

theorem traj_step_next_cursor_mono (env : TrajEnv) (s : TrajState)
    (inp : IterInput) (s' : TrajState) (ev : Option DispatchEvent)
    (hidx : s.waypoint_index < env.waypoints.length)
    (h : traj_step env s inp = .next s' ev) :
    s.waypoint_index ≤ s'.waypoint_index
    ∧ ∀ e, ev = some e →
        s.waypoint_index ≤ e.idx ∧ e.idx + 1 ≤ s'.waypoint_index := by
  have hle := (drift_skip_index_bounds s.waypoint_index
    (iter_skip_count env s inp) env.waypoints.length hidx).1
  simp only [traj_step] at h
  rw [if_pos hidx] at h
  split at h
  · split at h
    · split at h
      · exact absurd h (by simp)
      · injection h with h1 h2
        subst h1
        subst h2
        refine ⟨by simp, fun e he => ?_⟩
        obtain rfl : climb_event_of env.params s.waypoint_index = e :=
          Option.some_injective _ he
        simp [idx_climb_event_of]
    · split at h
      · exact absurd h (by simp)
      · split at h
        · exact absurd h (by simp)
        · split at h
          · exact absurd h (by simp)
          · injection h with h1 h2
            subst h1
            subst h2
            have hle' : s.waypoint_index ≤ iter_dispatch_index env s inp := hle
            refine ⟨by simpa using le_trans hle' (Nat.le_succ _), fun e he => ?_⟩
            obtain rfl : dispatch_event_of env.params
                (iter_dispatch_index env s inp) = e :=
              Option.some_injective _ he
            simp [idx_dispatch_event_of, hle']
  · split at h
    · injection h with h1 h2
      subst h1
      subst h2
      exact ⟨le_rfl, fun e he => by cases he⟩
    · injection h with h1 h2
      subst h1
      subst h2
      exact ⟨by simp, fun e he => by cases he⟩

theorem traj_step_landing_cursor_mono (env : TrajEnv) (s : TrajState)
    (inp : IterInput) (s' : TrajState) (ev : DispatchEvent)
    (hidx : s.waypoint_index < env.waypoints.length)
    (h : traj_step env s inp = .landingBreak s' ev) :
    s.waypoint_index ≤ ev.idx := by
  have hle := (drift_skip_index_bounds s.waypoint_index
    (iter_skip_count env s inp) env.waypoints.length hidx).1
  simp only [traj_step] at h
  rw [if_pos hidx] at h
  split at h
  · split at h
    · split at h
      · exact absurd h (by simp)
      · exact absurd h (by simp)
    · split at h
      · exact absurd h (by simp)
      · split at h
        · exact absurd h (by simp)
        · split at h
          · injection h with h1 h2
            subst h2
            simpa [idx_dispatch_event_of] using hle
          · exact absurd h (by simp)
  · split at h
    · exact absurd h (by simp)
    · exact absurd h (by simp)

theorem traj_run_pairwise_le (env : TrajEnv) :
    ∀ (inputs : List IterInput) (s : TrajState),
      List.Pairwise (· ≤ ·) (traj_run env s inputs)
      ∧ ∀ i ∈ traj_run env s inputs, s.waypoint_index ≤ i := by
  intro inputs
  induction inputs with
  | nil => intro s; exact ⟨by simp [traj_run], by simp [traj_run]⟩
  | cons inp rest ih =>
    intro s
    simp only [traj_run]
    split
    case isTrue hguard =>
      cases hstep : traj_step env s inp with
      | next s' ev =>
        obtain ⟨hmono, hev⟩ :=
          traj_step_next_cursor_mono env s inp s' ev hguard hstep
        obtain ⟨ihp, ihlb⟩ := ih s'
        cases ev with
        | none =>
          simp only [Option.map_none, Option.toList_none, List.nil_append]
          exact ⟨ihp, fun i hi => le_trans hmono (ihlb i hi)⟩
        | some e =>
          obtain ⟨he1, he2⟩ := hev e rfl
          simp only [Option.map_some, Option.toList_some, List.singleton_append]
          refine ⟨List.pairwise_cons.mpr ⟨fun j hj => ?_, ihp⟩, fun i hi => ?_⟩
          · exact le_trans (Nat.le_of_succ_le he2) (ihlb j hj)
          · rcases List.mem_cons.1 hi with rfl | hi'
            · exact he1
            · exact le_trans hmono (ihlb i hi')
      | landingBreak s' ev =>
        have hlb := traj_step_landing_cursor_mono env s inp s' ev hguard hstep
        refine ⟨List.pairwise_singleton _ _, fun i hi => ?_⟩
        rcases List.mem_singleton.1 hi with rfl
        exact hlb
      | errorBreak => simp
    case isFalse => simp

/-- C4: across the execution loop the cursor never decreases — each
continuing iteration's new cursor is ≥ the old one — the drift-skip result
stays between the current cursor and the last index
(`total_waypoints - 1`), and the cursor indices of the dispatched setpoints
form a non-decreasing sequence (waypoints can be skipped, never reordered
or revisited). -/
theorem dispatch_order_monotone (env : TrajEnv) (s : TrajState)
    (inputs : List IterInput) :
    List.Pairwise (· ≤ ·) (traj_run env s inputs)
    ∧ (∀ inp s' ev, s.waypoint_index < env.waypoints.length →
        traj_step env s inp = .next s' ev →
        s.waypoint_index ≤ s'.waypoint_index)
    ∧ (∀ idx k total, idx < total →
        idx ≤ drift_skip_index idx k total
        ∧ drift_skip_index idx k total ≤ total - 1) :=
  ⟨(traj_run_pairwise_le env inputs s).1,
    fun inp s' ev hidx h =>
      (traj_step_next_cursor_mono env s inp s' ev hidx h).1,
    fun idx k total h => drift_skip_index_bounds idx k total h⟩

/-- C4 (witness): the theorem at the sample mission, one concrete
continuing step, and the concrete skip `drift_skip_index 0 3 2 = 1`. -/
theorem dispatch_order_monotone_witness :
    List.Pairwise (· ≤ ·) (traj_run sampleEnv sampleState [sampleInput])
    ∧ sampleState.waypoint_index
        ≤ ({ sampleState with waypoint_index := 1 } : TrajState).waypoint_index
    ∧ (0 ≤ drift_skip_index 0 3 2 ∧ drift_skip_index 0 3 2 ≤ 2 - 1) := by
  obtain ⟨h1, h2, h3⟩ :=
    dispatch_order_monotone sampleEnv sampleState [sampleInput]
  exact ⟨h1,
    h2 sampleInput { sampleState with waypoint_index := 1 }
      (some (.setpointLocalPos 0)) (by decide) (by with_unfolding_all decide),
    h3 0 3 2 (by decide)⟩

/-! ## C8 — command error during the initial climb -/

/-- C8 (counterexample): the claim says an isolated command error during a
climb-iteration setpoint send lets the loop continue with the next
iteration.  On the concrete climb iteration below (climb gate open, on
time, the climb send raising `OffboardError`), the loop's `except` handler
sets the LED red and *breaks*: the result is `errorBreak`, not a
continuing `next`. -/
theorem climb_command_error_counterexample :
    climb_gate climbEnv.params climbState.initial_climb_completed
        ((corrected_pos climbEnv (wpAt climbEnv 0)).2.2)
        (climbFailInput.now - climbState.initial_climb_start_time) = true
    ∧ climbFailInput.climb_send_fails = true
    ∧ traj_step climbEnv climbState climbFailInput = .errorBreak
    ∧ (traj_step climbEnv climbState climbFailInput).isNext = false := by
  refine ⟨?_, ?_, ?_, ?_⟩ <;> with_unfolding_all decide

/-- C8 (amended): an `OffboardError` raised while sending the setpoint of
an on-time initial-climb iteration is *not* recovered locally: the loop's
handler sets the fault indicator and breaks the trajectory loop (the
post-loop landing handling then runs). -/
theorem climb_command_error_breaks_loop (env : TrajEnv) (s : TrajState)
    (inp : IterInput)
    (hidx : s.waypoint_index < env.waypoints.length)
    (hontime : 0 ≤ iter_drift_delta env s inp)
    (hgate : climb_gate env.params s.initial_climb_completed
        ((corrected_pos env (wpAt env s.waypoint_index)).2.2)
        (inp.now - s.initial_climb_start_time) = true)
    (hfail : inp.climb_send_fails = true) :
    traj_step env s inp = .errorBreak
    ∧ post_loop env false ≠ .noneNeeded := by
  constructor
  · simp only [traj_step]
    rw [if_pos hidx, if_pos hontime, hgate]
    simp [hfail]
  · rcases h : trajectory_ends_high env.params env.waypoints <;>
      simp [post_loop, h]

/-- C8 (witness): the amended theorem at the concrete climb iteration. -/
theorem climb_command_error_breaks_loop_witness :
    (climbState.waypoint_index < climbEnv.waypoints.length
      ∧ 0 ≤ iter_drift_delta climbEnv climbState climbFailInput
      ∧ climb_gate climbEnv.params climbState.initial_climb_completed
          ((corrected_pos climbEnv (wpAt climbEnv climbState.waypoint_index)).2.2)
          (climbFailInput.now - climbState.initial_climb_start_time) = true
      ∧ climbFailInput.climb_send_fails = true)
    ∧ (traj_step climbEnv climbState climbFailInput = .errorBreak
      ∧ post_loop climbEnv false ≠ .noneNeeded) :=
  ⟨⟨by decide, by with_unfolding_all decide, by with_unfolding_all decide,
      by decide⟩,
    climb_command_error_breaks_loop climbEnv climbState climbFailInput
      (by decide) (by with_unfolding_all decide)
      (by with_unfolding_all decide) (by decide)⟩

/-! ## C10 — zero per-sample duration raises `ZeroDivisionError` -/

/-- C10: `csv_step` is computed solely from the first two time offsets
(default only for single-waypoint trajectories) and is an unguarded
divisor.  For a trajectory of ≥ 2 waypoints whose first two offsets are
equal, every on-time iteration after the climb gate has completed raises
`ZeroDivisionError` at the drift-skip division; the loop's generic handler
turns this into the fault indicator plus a break (`errorBreak`), after
which the post-loop landing path (native landing or controlled descent,
never "nothing") runs. -/
theorem zero_csv_step_divzero_breaks (env : TrajEnv) (s : TrajState)
    (inp : IterInput) (w0 w1 : Waypoint) (rest : List Waypoint)
    (hws : env.waypoints = w0 :: w1 :: rest)
    (hteq : w1.t = w0.t)
    (hidx : s.waypoint_index < env.waypoints.length)
    (hontime : 0 ≤ iter_drift_delta env s inp)
    (hclimb : s.initial_climb_completed = true) :
    traj_step env s inp = .errorBreak
    ∧ post_loop env false ≠ .noneNeeded := by
  have hcs : csv_step_of env.params env.waypoints = 0 := by
    rw [hws]
    simp [csv_step_of, hteq]
  have hgate : climb_gate env.params s.initial_climb_completed
      ((corrected_pos env (wpAt env s.waypoint_index)).2.2)
      (inp.now - s.initial_climb_start_time) = false := by
    rw [hclimb]
    exact climb_gate_of_completed _ _ _
  constructor
  · simp only [traj_step]
    rw [if_pos hidx, if_pos hontime, hgate]
    simp [hcs]
  · rcases h : trajectory_ends_high env.params env.waypoints <;>
      simp [post_loop, h]

/-- C10 (witness): the theorem at the concrete two-waypoint mission with
both offsets 0. -/
theorem zero_csv_step_divzero_breaks_witness :
    (zeroStepEnv.waypoints = sampleWp 0 0 :: sampleWp 0 0 :: []
      ∧ (sampleWp 0 0).t = (sampleWp 0 0).t
      ∧ sampleState.waypoint_index < zeroStepEnv.waypoints.length
      ∧ 0 ≤ iter_drift_delta zeroStepEnv sampleState sampleInput
      ∧ sampleState.initial_climb_completed = true)
    ∧ (traj_step zeroStepEnv sampleState sampleInput = .errorBreak
      ∧ post_loop zeroStepEnv false ≠ .noneNeeded) :=
  ⟨⟨by with_unfolding_all decide, rfl, by decide,
      by with_unfolding_all decide, by decide⟩,
    zero_csv_step_divzero_breaks zeroStepEnv sampleState sampleInput
      (sampleWp 0 0) (sampleWp 0 0) []
      (by with_unfolding_all decide) rfl (by decide)
      (by with_unfolding_all decide) (by decide)⟩

/-! ## C9 — command errors during controlled landing -/

theorem controlled_landing_loop_first_failing_send (env : LandEnv)
    (pre : List LandIterInput) (i : LandIterInput) (rest : List LandIterInput)
    (hpre : ∀ j ∈ pre, j.send_fails = false ∧ j.on_ground = false
      ∧ ¬(env.params.LANDING_TIMEOUT < j.now - env.landing_start_time))
    (hfail : i.send_fails = true) :
    controlled_landing_loop env (pre ++ i :: rest)
      = some (List.replicate pre.length .sendDescent ++ [.ledRed], false) := by
  induction pre with
  | nil => simp [controlled_landing_loop, hfail]
  | cons j pre ih =>
    obtain ⟨hjf, hjg, hjt⟩ := hpre j (List.mem_cons_self j pre)
    have ih' := ih fun j' hj' => hpre j' (List.mem_cons_of_mem j hj')
    simp [controlled_landing_loop, hjf, hjg, hjt, ih', List.replicate_succ]

/-- C9 (counterexample): the claim covers every command error raised while
issuing descent setpoints during controlled landing, but an `OffboardError`
on the *initial* descent-mode setpoint (drone_show.py, lines 730-737) makes
the controller set the LED red and return immediately: the trace contains
neither a stop of offboard mode nor a native landing command — the
timed-out fallback path is not taken. -/
theorem descent_setup_error_counterexample :
    controlled_landing sampleLandEnv true [] = some [LandAction.ledRed]
    ∧ LandAction.stopOffboard ∉ [LandAction.ledRed]
    ∧ LandAction.nativeLand ∉ [LandAction.ledRed] := by
  refine ⟨rfl, by decide, by decide⟩

/-- C9 (amended): for a command error raised while issuing a descent
setpoint *inside the descent loop* (after any number of uneventful
iterations), the controller sets the fault indicator and then takes the
timed-out fallback path: it stops offboard mode and issues the native
landing command.  An error on the initial descent-mode setpoint instead
returns right after setting the fault indicator, without the fallback. -/
theorem descent_loop_error_fallback (env : LandEnv)
    (pre : List LandIterInput) (i : LandIterInput) (rest : List LandIterInput)
    (hpre : ∀ j ∈ pre, j.send_fails = false ∧ j.on_ground = false
      ∧ ¬(env.params.LANDING_TIMEOUT < j.now - env.landing_start_time))
    (hfail : i.send_fails = true) :
    controlled_landing env false (pre ++ i :: rest)
      = some (List.replicate pre.length .sendDescent
          ++ [.ledRed, .stopOffboard, .nativeLand, .ledGreen]) := by
  simp [controlled_landing,
    controlled_landing_loop_first_failing_send env pre i rest hpre hfail]

/-- C9 (witness): the amended theorem with one uneventful iteration and a
failing send on the second. -/
theorem descent_loop_error_fallback_witness :
    (⟨true, false, 2⟩ : LandIterInput).send_fails = true
    ∧ controlled_landing sampleLandEnv false
        [⟨false, false, 1⟩, ⟨true, false, 2⟩]
      = some (List.replicate 1 .sendDescent
          ++ [.ledRed, .stopOffboard, .nativeLand, .ledGreen]) :=
  ⟨rfl,
    descent_loop_error_fallback sampleLandEnv [⟨false, false, 1⟩]
      ⟨true, false, 2⟩ [] (by with_unfolding_all decide) rfl⟩

end DroneShow
